import Mathlib

/-!
Verification of the request/response correlation layer of
`src/AutomatedTests/WebSocketHelper.js`.

The JavaScript module keeps a single `EventEmitter` whose event names are
correlation ids.  `waitForResponse(id, expectedResponse, repeating)` installs a
listener for `id`; each inbound socket message is parsed and its payload
(`msg.info || msg.data`) is emitted under `msg.id`.  We embed the values, the
listener table and each session operation as executable Lean definitions and
prove the spec's claims about them.
-/

namespace UniumWS

/-- JavaScript runtime values, as used by the helper: both inbound payloads and
caller-supplied expected responses.  Numbers are modelled as rationals (the
only arithmetic the source performs on them is comparison with `0` in
`send`). -/
inductive JSVal where
  | undefined
  | null
  | bool (b : Bool)
  | num (q : Rat)
  | str (s : String)
  | arr (elems : List JSVal)


/-- JavaScript truthiness, used by the listener's `!expectedResponse` test and
by the `msg.info || msg.data` payload extraction: `undefined`, `null`,
`false`, `0` and the empty string are falsy; arrays are always truthy. -/
def truthy : JSVal → Bool
  | .undefined => false
  | .null => false
  | .bool b => b
  | .num q => q != 0
  | .str s => s != ""
  | .arr _ => true

/-- JavaScript strict equality `===` as it applies in this program: value
equality on primitives.  Arrays (objects) compare by reference; a
caller-supplied expected value and a payload parsed from the wire are always
distinct objects, so two arrays never compare equal here. -/
def strictEq : JSVal → JSVal → Bool
  | .undefined, .undefined => true
  | .null, .null => true
  | .bool a, .bool b => a == b
  | .num a, .num b => a == b
  | .str a, .str b => a == b
  | _, _ => false

mutual

/-- JavaScript string coercion `"" + v`, used when the source concatenates a
response into a diagnostic or log message. -/
def jsString : JSVal → String
  | .undefined => "undefined"
  | .null => "null"
  | .bool b => cond b "true" "false"
  | .num q => toString q
  | .str s => s
  | .arr l => jsStringList l

/-- Array-to-string coercion: elements joined by commas, with `undefined` and
`null` elements rendered as the empty string. -/
def jsStringList : List JSVal → String
  | [] => ""
  | [.undefined] => ""
  | [.null] => ""
  | [v] => jsString v
  | .undefined :: r => "," ++ jsStringList r
  | .null :: r => "," ++ jsStringList r
  | v :: r => jsString v ++ "," ++ jsStringList r

end

/-- The id-namespace prefixes declared at the top of the source file. -/
def prefixEvent : String := "event_"

/-- Path prefix for one-shot and repeating queries. -/
def prefixQuery : String := "/q/"

/-- Path prefix for event subscriptions. -/
def prefixBind : String := "/bind/"

/-- A listener installed by `waitForResponse`.  `wid` is model bookkeeping
identifying the underlying promise, so that "resolves exactly once" is a
statement about the trace of settlement events; `expected` is the
`expectedResponse` argument (`.undefined` when the caller omitted it) and
`repeating` the `repeating` flag. -/
structure Waiter where
  wid : Nat
  expected : JSVal
  repeating : Bool


/-- What one listener invocation does, mirroring the three branches of the
listener body in `waitForResponse`. -/
inductive LStep where
  | resolve (v : JSVal)
  | reject (msg : String)
  | keep


/-- The rejection diagnostic built in `waitForResponse`. -/
def mismatchMsg (expected actual : JSVal) : String :=
  "Returned response (" ++ jsString actual ++ ") does not match expected ("
    ++ jsString expected ++ ")"

/-- The listener body of `waitForResponse`: if `!expectedResponse ||
expectedResponse === response`, remove the listener and resolve with the
response; else if not repeating, remove the listener and reject with the
mismatch diagnostic; else keep the listener and do nothing. -/
def listenerStep (expected : JSVal) (repeating : Bool) (response : JSVal) : LStep :=
  if !truthy expected || strictEq expected response then .resolve response
  else if !repeating then .reject (mismatchMsg expected response)
  else .keep

/-- A settlement of a waiter's promise, recorded in dispatch traces. -/
inductive Event where
  | resolved (wid : Nat) (v : JSVal)
  | rejected (wid : Nat) (msg : String)


/-- The `eventEmitter` listener table: pairs of (event name, listener), in
registration order.  Node's `EventEmitter` keeps a list per event name and
`emit` calls every matching listener in registration order. -/
abbrev Listeners := List (String × Waiter)

/-- `eventEmitter.emit(id, v)`: every listener registered under `id` is
invoked in registration order; a listener that resolves or rejects removes
itself (the source's `removeListener` calls).  Returns the remaining listener
table and the settlement events in invocation order. -/
def emit : Listeners → String → JSVal → Listeners × List Event
  | [], _, _ => ([], [])
  | (k, w) :: rest, id, v =>
    let next := emit rest id v
    if k == id then
      match listenerStep w.expected w.repeating v with
      | .resolve r => (next.1, .resolved w.wid r :: next.2)
      | .reject m => (next.1, .rejected w.wid m :: next.2)
      | .keep => ((k, w) :: next.1, next.2)
    else ((k, w) :: next.1, next.2)

/-- Dispatch a sequence of payloads to `id`, one `emit` after another,
accumulating the settlement events in order. -/
def emitSeq : Listeners → String → List JSVal → Listeners × List Event
  | ls, _, [] => (ls, [])
  | ls, id, v :: vs =>
    let first := emit ls id v
    let rest := emitSeq first.1 id vs
    (rest.1, first.2 ++ rest.2)

/-- `waitForResponse(id, expectedResponse, repeating)`: installs a listener
for `id` via `eventEmitter.on`, which appends to the listener list. -/
def waitForResponse (ls : Listeners) (id : String) (wid : Nat)
    (expectedResponse : JSVal) (repeating : Bool) : Listeners :=
  ls ++ [(id, ⟨wid, expectedResponse, repeating⟩)]

theorem emit_nil (id : String) (v : JSVal) : emit [] id v = ([], []) := rfl

theorem emitSeq_nil (id : String) (vs : List JSVal) :
    emitSeq [] id vs = ([], []) := by
  induction vs with
  | nil => rfl
  | cons v vs ih => simp [emitSeq, emit, ih]

/-- `waitForRepeatResponse(id, expectedResponse)`: registers a repeating
waiter for `id` (the source calls `waitForResponse(id, expectedResponse,
true)`). -/
def waitForRepeatResponse (ls : Listeners) (wid : Nat) (id : String)
    (expectedResponse : JSVal) : Listeners :=
  waitForResponse ls id wid expectedResponse true

/-- `waitForEvent(id, expectedResponse)`: registers a repeating waiter for the
event-namespaced id `prefixEvent + id`. -/
def waitForEvent (ls : Listeners) (wid : Nat) (id : String)
    (expectedResponse : JSVal) : Listeners :=
  waitForResponse ls (prefixEvent ++ id) wid expectedResponse true

theorem emitSeq_append (ls : Listeners) (id : String) (xs ys : List JSVal) :
    emitSeq ls id (xs ++ ys)
      = ((emitSeq (emitSeq ls id xs).1 id ys).1,
         (emitSeq ls id xs).2 ++ (emitSeq (emitSeq ls id xs).1 id ys).2) := by
  induction xs generalizing ls with
  | nil => simp [emitSeq]
  | cons x xs ih => simp [emitSeq, ih]

/-- A repeating waiter with a truthy expected value ignores every
non-matching reply: the listener table and the event trace are unchanged. -/
theorem repeating_mismatches_keep (id : String) (wid : Nat) (e : JSVal)
    (rs : List JSVal) (htr : truthy e = true)
    (hall : ∀ r ∈ rs, strictEq e r = false) :
    emitSeq [(id, ⟨wid, e, true⟩)] id rs = ([(id, ⟨wid, e, true⟩)], []) := by
  induction rs with
  | nil => rfl
  | cons r rs ih =>
    have h1 := hall r (by simp)
    simp [emitSeq, emit, listenerStep, htr, h1,
      ih (fun x hx => hall x (by simp [hx]))]

/-- C1: registering a one-shot waiter with no expected value and dispatching
any reply for its id resolves the waiter exactly once with that payload, and
the waiter is deregistered with the resolution: every later reply in the same
sequence finds an empty listener table for the id, so the id can be reused
without residue. -/
theorem oneShot_noExpected_resolves_once (id : String) (wid : Nat)
    (v : JSVal) (rest : List JSVal) :
    emitSeq (waitForResponse [] id wid .undefined false) id (v :: rest)
      = ([], [.resolved wid v]) := by
  simp [waitForResponse, emitSeq, emit, listenerStep, truthy, emitSeq_nil]

/-- C2 counterexample: with the falsy expected value `""`, a non-repeating
waiter dispatched the non-matching reply `"x"` does not reject with a
diagnostic as the claim states: the listener's `!expectedResponse` test is
true, so it resolves with `"x"`, and the later matching reply `""` is
dropped. -/
theorem nonRepeating_falsy_resolves_instead_of_rejecting :
    strictEq (.str "") (.str "x") = false ∧
    emitSeq (waitForResponse [] "a" 0 (.str "") false) "a" [.str "x", .str ""]
      = ([], [.resolved 0 (.str "x")]) :=
  ⟨rfl, rfl⟩

/-- C2 amended: for every truthy expected value `e`, a non-repeating waiter
dispatched a reply `r` not strictly equal to `e` rejects exactly once with
the diagnostic naming both the expected and the actual payload, deregisters
at the moment of rejection, and never resolves afterwards: every later reply
in the sequence, including ones equal to `e`, produces no further event. -/
theorem nonRepeating_mismatch_rejects_once (id : String) (wid : Nat)
    (e r : JSVal) (rest : List JSVal)
    (htr : truthy e = true) (hne : strictEq e r = false) :
    emitSeq (waitForResponse [] id wid e false) id (r :: rest)
      = ([], [.rejected wid (mismatchMsg e r)]) := by
  simp [waitForResponse, emitSeq, emit, listenerStep, htr, hne, emitSeq_nil]

theorem nonRepeating_mismatch_rejects_once_witness :
    truthy (.str "ok") = true ∧ strictEq (.str "ok") (.str "x") = false ∧
    emitSeq (waitForResponse [] "a" 0 (.str "ok") false) "a"
        [.str "x", .str "ok"]
      = ([], [.rejected 0 (mismatchMsg (.str "ok") (.str "x"))]) :=
  ⟨rfl, rfl,
    nonRepeating_mismatch_rejects_once "a" 0 (.str "ok") (.str "x")
      [.str "ok"] rfl rfl⟩

/-- C3 counterexample: the claim fails for expected values the listener's
truthiness test treats as unset and for array expected values.  With the
falsy expected value `""`, a repeating waiter dispatched `["A", ""]` does not
stay pending through the non-matching `"A"`: it resolves immediately with
`"A"`.  With the truthy array expected value `["X"]`, the reply `["X"]` never
matches (strict equality on objects is reference equality), so the waiter
stays pending even on the expected reply. -/
theorem repeating_falsy_resolves_early :
    strictEq (.str "") (.str "A") = false ∧
    emitSeq (waitForRepeatResponse [] 0 "a" (.str "")) "a"
        [.str "A", .str ""]
      = ([], [.resolved 0 (.str "A")]) ∧
    emitSeq (waitForRepeatResponse [] 1 "b" (.arr [.str "X"])) "b"
        [.arr [.str "X"]]
      = ([("b", ⟨1, .arr [.str "X"], true⟩)], []) :=
  ⟨rfl, rfl, rfl⟩

/-- C3 amended: for every truthy expected value `e` that strictly equals
itself (any non-array value), a repeating waiter dispatched a sequence of
replies all differing from `e` stays pending through every one of them —
listener table and event trace unchanged — and, when `e` finally arrives,
resolves exactly once with `e` and is deregistered on that resolution. -/
theorem repeating_waiter_pends_then_resolves (id : String) (wid : Nat)
    (e : JSVal) (rs : List JSVal) (htr : truthy e = true)
    (hself : strictEq e e = true) (hall : ∀ r ∈ rs, strictEq e r = false) :
    emitSeq (waitForRepeatResponse [] wid id e) id rs
        = (waitForRepeatResponse [] wid id e, []) ∧
    emitSeq (waitForRepeatResponse [] wid id e) id (rs ++ [e])
      = ([], [.resolved wid e]) := by
  have hkeep := repeating_mismatches_keep id wid e rs htr hall
  constructor
  · simpa [waitForRepeatResponse, waitForResponse] using hkeep
  · rw [emitSeq_append]
    simp only [waitForRepeatResponse, waitForResponse, List.nil_append] at hkeep ⊢
    simp [hkeep, emitSeq, emit, listenerStep, hself]

theorem repeating_waiter_pends_then_resolves_witness :
    truthy (.str "ok") = true ∧
    emitSeq (waitForRepeatResponse [] 0 "a" (.str "ok")) "a"
        ([.str "u", .str "v"] ++ [.str "ok"])
      = ([], [.resolved 0 (.str "ok")]) :=
  ⟨rfl,
    (repeating_waiter_pends_then_resolves "a" 0 (.str "ok")
      [.str "u", .str "v"] rfl rfl (by decide)).2⟩

/-- C4 counterexample: registering a second waiter for an id that already has
a live waiter does not supersede the first.  `eventEmitter.on` appends, so
after two registrations both waiters are live, and a dispatched reply is
delivered to both — the older waiter (wid 0) receives it first — refuting
both "at most one live waiter per id" and "only the newest registration
receives subsequently dispatched replies". -/
theorem second_registration_does_not_supersede :
    waitForResponse (waitForResponse [] "a" 0 .undefined false) "a" 1 .undefined false
      = [("a", ⟨0, .undefined, false⟩), ("a", ⟨1, .undefined, false⟩)] ∧
    emit [("a", ⟨0, .undefined, false⟩), ("a", ⟨1, .undefined, false⟩)] "a" (.str "x")
      = ([], [.resolved 0 (.str "x"), .resolved 1 (.str "x")]) :=
  ⟨rfl, rfl⟩

/-- C4 amended: any number of waiters may be live for one id simultaneously;
registration never removes an existing waiter, and a dispatched reply is
delivered to every registered waiter for that id in registration order
(oldest first).  Stated here for waiters whose expected value is unset or
falsy, so each of them settles by resolving with the payload. -/
theorem emit_delivers_to_all_registered (id : String) (ws : List Waiter)
    (v : JSVal) (hall : ∀ w ∈ ws, truthy w.expected = false) :
    emit (ws.map fun w => (id, w)) id v
      = ([], ws.map fun w => Event.resolved w.wid v) := by
  induction ws with
  | nil => rfl
  | cons w ws ih =>
    have h1 := hall w (by simp)
    simp [emit, listenerStep, h1, ih (fun x hx => hall x (by simp [hx]))]

theorem emit_delivers_to_all_registered_witness :
    (∀ w ∈ [(⟨0, .undefined, false⟩ : Waiter), ⟨1, .num 0, true⟩],
        truthy w.expected = false) ∧
    emit ([(⟨0, .undefined, false⟩ : Waiter), ⟨1, .num 0, true⟩].map
        fun w => ("a", w)) "a" (.str "x")
      = ([], [.resolved 0 (.str "x"), .resolved 1 (.str "x")]) :=
  ⟨by decide,
    emit_delivers_to_all_registered "a"
      [⟨0, .undefined, false⟩, ⟨1, .num 0, true⟩] (.str "x") (by decide)⟩

/-- C10: a waiter registered with a falsy expected value (such as `0`,
`false` or `""`) behaves as if no expected value were set: whether registered
directly, via `waitForRepeatResponse`, or via `waitForEvent`, it resolves on
the first dispatched reply with that reply's payload, regardless of whether
the payload equals the expected value. -/
theorem falsyExpected_resolves_on_first_reply (id : String) (wid : Nat)
    (e v : JSVal) (rep : Bool) (hf : truthy e = false) :
    emitSeq (waitForResponse [] id wid e rep) id [v]
        = ([], [.resolved wid v]) ∧
    emitSeq (waitForRepeatResponse [] wid id e) id [v]
        = ([], [.resolved wid v]) ∧
    emitSeq (waitForEvent [] wid id e) (prefixEvent ++ id) [v]
      = ([], [.resolved wid v]) := by
  refine ⟨?_, ?_, ?_⟩ <;>
    simp [waitForResponse, waitForRepeatResponse, waitForEvent, emitSeq, emit,
      listenerStep, hf, emitSeq_nil]

theorem falsyExpected_resolves_on_first_reply_witness :
    truthy (.num 0) = false ∧
    emitSeq (waitForRepeatResponse [] 0 "a" (.num 0)) "a" [.str "x"]
      = ([], [.resolved 0 (.str "x")]) :=
  ⟨rfl,
    (falsyExpected_resolves_on_first_reply "a" 0 (.num 0) (.str "x")
      true rfl).2.1⟩

/-- Outbound wire message built by `send`: `msg = {id, q}`, with a
`repeat: {freq}` member added exactly when `freq >= 0`.  `repeatFreq` models
that optional member. -/
structure OutMsg where
  id : String
  q : String
  repeatFreq : Option JSVal

/-- The JavaScript comparison `freq >= 0` as it applies to the values this
module passes for `freq`: numbers compare numerically; `undefined` (the
defaulted argument) and the string `"bound"` (passed by `bindToEvent`) both
coerce to `NaN`, making the comparison false. -/
def jsGe0 : JSVal → Bool
  | .num q => 0 ≤ q
  | _ => false

/-- The message-construction half of `send`. -/
def sendMsg (id url : String) (freq : JSVal) : OutMsg :=
  ⟨id, url, if jsGe0 freq then some freq else none⟩

/-- `send(ws, id, url, freq, expectedResponse)`: builds and dispatches the
wire message, then returns `waitForResponse(id, expectedResponse)` — a
non-repeating waiter for `id`.  The result pairs the dispatched message with
the listener table after registration. -/
def send (ls : Listeners) (wid : Nat) (id url : String)
    (freq expectedResponse : JSVal) : OutMsg × Listeners :=
  (sendMsg id url freq, waitForResponse ls id wid expectedResponse false)

/-- An inbound message as parsed in `connect`'s `onmessage` handler; absent
fields are `.undefined`. -/
structure InMsg where
  id : String
  data : JSVal
  info : JSVal
  error : JSVal

/-- JavaScript `a || b`: `a` when truthy, otherwise `b`. -/
def jsOr (a b : JSVal) : JSVal := if truthy a then a else b

/-- The same inbound message with the `error` field absent. -/
def clearError (m : InMsg) : InMsg := ⟨m.id, m.data, m.info, .undefined⟩

/-- The `onmessage` handler installed by `connect`: logs a diagnostic when
`msg.error` is truthy (before emitting), then emits `msg.info || msg.data`
under `msg.id`.  Returns the listener table after the emit, the settlement
events, and the console diagnostics produced. -/
def onMessage (ls : Listeners) (m : InMsg) : Listeners × List Event × List String :=
  ((emit ls m.id (jsOr m.info m.data)).1,
   (emit ls m.id (jsOr m.info m.data)).2,
   if truthy m.error then
     ["Message has an error: \x7b" ++ m.id ++ "\x7d " ++ jsString m.error]
   else [])

/-- JavaScript indexing `v[0]` as used by `query`: the first element of an
array (or `undefined` for an empty one), the first character of a string, and
`undefined` on everything else. -/
def jsIndex0 : JSVal → JSVal
  | .arr (v :: _) => v
  | .str s =>
    match s.toList with
    | [] => .undefined
    | c :: _ => .str (String.mk [c])
  | _ => .undefined

/-- `query(id, url)`: `send(ws, id, prefixQuery + url)` with `freq` defaulted
to `-1` and no expected response, then `[0]` on the resolved payload.  The
third component is that final unwrapping applied to whatever payload the
waiter resolves with. -/
def query (ls : Listeners) (wid : Nat) (id url : String) :
    OutMsg × Listeners × (JSVal → JSVal) :=
  let s := send ls wid id (prefixQuery ++ url) (.num (-1)) .undefined
  (s.1, s.2, jsIndex0)

/-- `queryAll(id, url)`: identical to `query` except the resolved payload is
returned unmodified. -/
def queryAll (ls : Listeners) (wid : Nat) (id url : String) :
    OutMsg × Listeners × (JSVal → JSVal) :=
  let s := send ls wid id (prefixQuery ++ url) (.num (-1)) .undefined
  (s.1, s.2, fun v => v)

/-- One send-and-await-acknowledgment round-trip: the dispatched message
together with the expected response the call awaits before continuing. -/
structure RoundTrip where
  msg : OutMsg
  ack : JSVal

/-- `addRepeatingQueryId(id)`: throws when `repeatingQueries[id] == 1`
(the only value ever stored is `1`, so this is membership), otherwise records
the id.  The registry is modelled as its list of keys in insertion order. -/
def addRepeatingQueryId (reg : List String) (id : String) :
    Except String (List String) :=
  if id ∈ reg then
    .error ("Repeating query ID (" ++ id ++ ") is already being used")
  else .ok (reg ++ [id])

/-- `repeatQuery(id, url, freq)`: first `addRepeatingQueryId(id)` — a throw
there aborts the call before anything is sent — then
`send(ws, id, prefixQuery + url, freq, "repeating")`, awaited.  The first
component is the list of round-trips the call performs, in order. -/
def repeatQuery (reg : List String) (id url : String) (freq : JSVal) :
    List RoundTrip × Except String (List String) :=
  match addRepeatingQueryId reg id with
  | .error e => ([], .error e)
  | .ok reg2 =>
    ([⟨sendMsg id (prefixQuery ++ url) freq, .str "repeating"⟩], .ok reg2)

/-- The single round-trip `removeQuery(id)` performs: send
`/socket.stop(id)` and await the `"stopped"` acknowledgment. -/
def stopRoundTrip (id : String) : RoundTrip :=
  ⟨sendMsg id ("/socket.stop(" ++ id ++ ")") (.num (-1)), .str "stopped"⟩

/-- `removeQuery(id)`: sends the stop instruction, awaits `"stopped"`, then
deletes `id` from the registry. -/
def removeQuery (reg : List String) (id : String) :
    List RoundTrip × List String :=
  ([stopRoundTrip id], reg.erase id)

/-- The `for (let key in this.repeatingQueries) await this.removeQuery(key)`
loop: iterate the key list, threading the registry through each sequential
`removeQuery` and concatenating the round-trips in order. -/
def cleanUpAux : List String → List String → List RoundTrip × List String
  | [], reg => ([], reg)
  | k :: ks, reg =>
    let step := removeQuery reg k
    let rest := cleanUpAux ks step.2
    (step.1 ++ rest.1, rest.2)

/-- `cleanUpRepeatingQueries()`: run the removal loop over the registry's own
key list. -/
def cleanUpRepeatingQueries (reg : List String) :
    List RoundTrip × List String :=
  cleanUpAux reg reg

/-- The `send` call `bindToEvent(id, url, polling)` performs.  The source
passes `!polling ? "bound" : undefined` as the FOURTH argument of the five-ary
`send(ws, id, url, freq, expectedResponse)`, so the token lands in the `freq`
parameter and `expectedResponse` stays at its default `undefined`; this
embedding reproduces that argument placement. -/
def bindToEvent (ls : Listeners) (wid : Nat) (id url : String)
    (polling : Bool) : OutMsg × Listeners :=
  send ls wid (prefixEvent ++ id) (prefixBind ++ url)
    (if polling then .undefined else .str "bound") .undefined

theorem cleanUpAux_self (reg : List String) :
    cleanUpAux reg reg = (reg.map stopRoundTrip, []) := by
  induction reg with
  | nil => rfl
  | cons a l ih => simp [cleanUpAux, removeQuery, ih]

/-- C5: a second `repeatQuery` for the same id, with no intervening
`removeQuery`, fails with the duplicate-subscription error and performs no
round-trip at all: the guard throws before any message is sent. -/
theorem repeatQuery_duplicate_rejects_before_send (reg reg2 : List String)
    (id url url2 : String) (freq freq2 : JSVal)
    (h : (repeatQuery reg id url freq).2 = .ok reg2) :
    repeatQuery reg2 id url2 freq2
      = ([], .error ("Repeating query ID (" ++ id ++ ") is already being used")) := by
  unfold repeatQuery addRepeatingQueryId at h ⊢
  by_cases hm : id ∈ reg
  · simp [hm] at h
  · simp [hm] at h
    subst h
    simp

theorem repeatQuery_duplicate_rejects_before_send_witness :
    (repeatQuery [] "p1" "u" (.num 0)).2 = .ok ["p1"] ∧
    repeatQuery ["p1"] "p1" "u2" (.num 0)
      = ([], .error ("Repeating query ID (" ++ "p1" ++ ") is already being used")) :=
  ⟨by simp [repeatQuery, addRepeatingQueryId],
    repeatQuery_duplicate_rejects_before_send [] ["p1"] "p1" "u" "u2"
      (.num 0) (.num 0) (by simp [repeatQuery, addRepeatingQueryId])⟩

/-- C6: `cleanUpRepeatingQueries` on a registry holding ids A, B, C performs
exactly one stop-plus-"stopped"-acknowledgment round-trip per id, in
sequence (the trace lists the round-trips in the order the loop awaits
them), leaves the registry empty, and run again on the resulting empty
registry performs no round-trips and changes nothing. -/
theorem cleanUp_stops_each_id_once_and_idempotent (A B C : String) :
    cleanUpRepeatingQueries [A, B, C]
        = ([stopRoundTrip A, stopRoundTrip B, stopRoundTrip C], []) ∧
    cleanUpRepeatingQueries (cleanUpRepeatingQueries [A, B, C]).2
      = ([], []) := by
  have h : cleanUpRepeatingQueries [A, B, C]
      = ([stopRoundTrip A, stopRoundTrip B, stopRoundTrip C], []) := by
    simpa [cleanUpRepeatingQueries] using cleanUpAux_self [A, B, C]
  exact ⟨h, by rw [h]; rfl⟩

/-- C7: with a pending `query(i, path)`, an inbound reply carrying
`data: s` for id `i` resolves the waiter with the whole sequence `s` (and
deregisters it, with nothing logged); `query` then returns the first element
`s[0]` while `queryAll` returns `s` unmodified.  The sent message is the
`/q/`-prefixed path with no repeat member. -/
theorem query_unwraps_first_queryAll_returns_all (wid : Nat)
    (i path : String) (v : JSVal) (vs : List JSVal) :
    (query [] wid i path).1 = ⟨i, prefixQuery ++ path, none⟩ ∧
    onMessage (query [] wid i path).2.1 ⟨i, .arr (v :: vs), .undefined, .undefined⟩
      = ([], [.resolved wid (.arr (v :: vs))], []) ∧
    (query [] wid i path).2.2 (.arr (v :: vs)) = v ∧
    (queryAll [] wid i path).2.2 (.arr (v :: vs)) = .arr (v :: vs) := by
  refine ⟨rfl, ?_, rfl, rfl⟩
  simp [query, send, sendMsg, waitForResponse, onMessage, jsOr, truthy, emit,
    listenerStep]

/-- C8: evaluating `bindToEvent` with `polling = false` at a concrete input.
Because the source passes `"bound"` in `send`'s `freq` parameter slot, the
registered waiter's expected response is `undefined`, not `"bound"`; the
waiter therefore resolves on the very first reply for the event id even when
that reply is not the `"bound"` acknowledgment, and `bindToEvent` returns
without ever awaiting `"bound"`. -/
theorem bindToEvent_expected_token_misplaced :
    bindToEvent [] 0 "e" "path" false
      = (⟨"event_e", "/bind/path", none⟩,
         [("event_e", ⟨0, .undefined, false⟩)]) ∧
    emit [("event_e", ⟨0, .undefined, false⟩)] "event_e" (.str "nope")
      = ([], [.resolved 0 (.str "nope")]) :=
  ⟨rfl, rfl⟩

/-- C9: when an inbound reply's error field is truthy, the handler logs the
diagnostic naming the id and the error, and delivery is otherwise untouched:
the resulting listener table and the settlement events are exactly those
produced for the same message with no error field. -/
theorem remoteError_logged_but_delivered (ls : Listeners) (m : InMsg)
    (he : truthy m.error = true) :
    (onMessage ls m).1 = (onMessage ls (clearError m)).1 ∧
    (onMessage ls m).2.1 = (onMessage ls (clearError m)).2.1 ∧
    (onMessage ls m).2.2
      = ["Message has an error: \x7b" ++ m.id ++ "\x7d " ++ jsString m.error] := by
  simp [onMessage, clearError, he]

theorem remoteError_logged_but_delivered_witness :
    truthy (InMsg.mk "a" (.str "v") .undefined (.str "boom")).error = true ∧
    (onMessage [("a", ⟨0, .undefined, false⟩)]
        (InMsg.mk "a" (.str "v") .undefined (.str "boom"))).2.2
      = ["Message has an error: \x7b" ++ "a" ++ "\x7d " ++ jsString (.str "boom")] :=
  ⟨rfl,
    (remoteError_logged_but_delivered [("a", ⟨0, .undefined, false⟩)]
      (InMsg.mk "a" (.str "v") .undefined (.str "boom")) rfl).2.2⟩

end UniumWS
